import Mathlib

/-!
Verification development for the `CharLCD` MicroPython driver (`src/LCD.py`).

The driver bit-bangs an HD44780-family character LCD over six GPIO lines in
4-bit mode.  We shallowly embed it as pure Lean functions that return the
trace of externally visible effects:

* `Ev` is a pin-level event (a write to one of the six output lines, or a
  blocking sleep).  `lcd_byte` produces the exact pin-level event list of the
  `lcd_byte` method.
* `Act` is a call-level action (one `lcd_byte` invocation, or a sleep issued
  directly by a method).  The higher-level methods (`clear`, `home`,
  `set_line`, `set_cursor`, `create_char`, `message`, the display-control
  toggles and the construction sequence) are embedded at this level;
  `expandActs` relates the two levels.
* Fallible operations (Python `IndexError` on tuple/list indexing) return
  `Option` or carry an explicit success flag alongside the partial trace.
* All Python ints involved are nonnegative except the row/line indices and
  the `align` selector, which we model as `Int`; Python's negative-index
  tuple access is modelled by `pyGet`.
* Time is measured in ticks of 0.1 ms, so the float constants 0.0005 s and
  0.05 s become the exact tick counts 5 and 500.
-/

namespace CharLCD

/-- Character mode (`LCD_CHR = 1` in the source). -/
def LCD_CHR : Nat := 1

/-- Command mode (`LCD_CMD = 0` in the source). -/
def LCD_CMD : Nat := 0

/-- LCD RAM addresses for the start of each display line. -/
def LCD_LINES : List Nat := [0x80, 0xC0, 0x94, 0xD4]

/-- DDRAM address offsets of the four physical rows. -/
def LCD_ROW_OFFSETS : List Nat := [0x00, 0x40, 0x14, 0x54]

/-- Clear-display command. -/
def LCD_CLEAR : Nat := 0x01

/-- Cursor/display shift command. -/
def LCD_CURSORSHIFT : Nat := 0x10

/-- Display-control command base. -/
def LCD_DISPLAYCONTROL : Nat := 0x08

/-- Return-home command. -/
def LCD_HOME : Nat := 0x02

/-- Set-DDRAM-address command base. -/
def LCD_SETDDRAMADDR : Nat := 0x80

/-- Set-CGRAM-address command base. -/
def LCD_SETCGRAMADDR : Nat := 0x40

/-- Display-on control flag. -/
def LCD_DISPLAYON : Nat := 0x04

/-- Underline-cursor-off control flag. -/
def LCD_CURSOROFF : Nat := 0x00

/-- Underline-cursor-on control flag. -/
def LCD_CURSORON : Nat := 0x02

/-- Blink-on control flag. -/
def LCD_BLINKON : Nat := 0x01

/-- Blink-off control flag. -/
def LCD_BLINKOFF : Nat := 0x00

/-- Enable pulse width: 0.0005 s, in ticks of 0.1 ms. -/
def E_PULSE : Nat := 5

/-- Setup delay: 0.0005 s, in ticks of 0.1 ms. -/
def E_DELAY : Nat := 5

/-- Settle delay after clear/home: 0.05 s, in ticks of 0.1 ms. -/
def HOMEDELAY : Nat := 500

/-- Pin-level events: a write of a logic level to one of the six output
lines, or a blocking sleep of the given number of 0.1 ms ticks. -/
inductive Ev : Type
  | rs (v : Nat)
  | en (v : Nat)
  | d4 (v : Nat)
  | d5 (v : Nat)
  | d6 (v : Nat)
  | d7 (v : Nat)
  | sleep (ticks : Nat)
  deriving DecidableEq

/-- Pin-level trace of `lcd_byte`, after the register-select write and its
setup delay: clear the data lines, drive the high nibble, latch, clear the
data lines, drive the low nibble, latch — exactly the source order. -/
def lcd_byte_nibbles (bits : Nat) : List Ev :=
  ([Ev.d4 0, Ev.d5 0, Ev.d6 0, Ev.d7 0]
    ++ (if bits &&& 0x10 = 0x10 then [Ev.d4 1] else [])
    ++ (if bits &&& 0x20 = 0x20 then [Ev.d5 1] else [])
    ++ (if bits &&& 0x40 = 0x40 then [Ev.d6 1] else [])
    ++ (if bits &&& 0x80 = 0x80 then [Ev.d7 1] else []))
  ++ [Ev.sleep E_DELAY, Ev.en 1, Ev.sleep E_PULSE, Ev.en 0, Ev.sleep E_DELAY]
  ++ ([Ev.d4 0, Ev.d5 0, Ev.d6 0, Ev.d7 0]
    ++ (if bits &&& 0x01 = 0x01 then [Ev.d4 1] else [])
    ++ (if bits &&& 0x02 = 0x02 then [Ev.d5 1] else [])
    ++ (if bits &&& 0x04 = 0x04 then [Ev.d6 1] else [])
    ++ (if bits &&& 0x08 = 0x08 then [Ev.d7 1] else []))
  ++ [Ev.sleep E_DELAY, Ev.en 1, Ev.sleep E_PULSE, Ev.en 0, Ev.sleep E_DELAY]

/-- Pin-level trace of the `lcd_byte` method: set register select to the
mode, wait the setup delay, then transfer the two nibbles. -/
def lcd_byte (bits mode : Nat) : List Ev :=
  Ev.rs mode :: Ev.sleep E_DELAY :: lcd_byte_nibbles bits

/-- Call-level actions of the higher-level methods: one `lcd_byte` call, or
a sleep issued directly by the method. -/
inductive Act : Type
  | lcdByte (bits mode : Nat)
  | sleepAct (ticks : Nat)
  deriving DecidableEq

/-- Expansion of a call-level trace to the pin level. -/
def expandActs (acts : List Act) : List Ev :=
  (acts.map fun a =>
    match a with
    | Act.lcdByte b m => lcd_byte b m
    | Act.sleepAct t => [Ev.sleep t]).flatten

/-- Trace of `clear`: send the clear command, then the long settle sleep. -/
def clear_acts : List Act :=
  [Act.lcdByte LCD_CLEAR LCD_CMD, Act.sleepAct HOMEDELAY]

/-- Trace of `home`: send the return-home command, then the settle sleep. -/
def home_acts : List Act :=
  [Act.lcdByte LCD_HOME LCD_CMD, Act.sleepAct HOMEDELAY]

/-- Trace of the display part of `CharLCD.__init__`: the five fixed
command transfers followed by `clear`. -/
def init_acts : List Act :=
  [Act.lcdByte 0x33 LCD_CMD, Act.lcdByte 0x32 LCD_CMD, Act.lcdByte 0x28 LCD_CMD,
   Act.lcdByte 0x0C LCD_CMD, Act.lcdByte 0x06 LCD_CMD]
  ++ clear_acts

/-- Value of `self.displaycontrol` set at the end of `CharLCD.__init__`. -/
def displaycontrol_init : Nat :=
  LCD_DISPLAYON ||| LCD_CURSOROFF ||| LCD_BLINKOFF

/-- Bitwise and-with-complement on naturals: bit `i` of `andNot a b` is set
exactly when it is set in `a` and not in `b` (see `andNot_testBit`), which
is Python's `a & ~b` for nonnegative `a`, `b`. -/
def andNot (a b : Nat) : Nat :=
  a ^^^ (a &&& b)

/-- The `enable` method as a transition on `displaycontrol`: returns the new
state and the trace sent. -/
def enable (dc : Nat) (b : Bool) : Nat × List Act :=
  let dc2 := if b then dc ||| LCD_DISPLAYON else andNot dc LCD_DISPLAYON
  (dc2, [Act.lcdByte (LCD_DISPLAYCONTROL ||| dc2) LCD_CMD])

/-- The `show_blink` method as a transition on `displaycontrol`. -/
def show_blink (dc : Nat) (b : Bool) : Nat × List Act :=
  let dc2 := if b then dc ||| LCD_BLINKON else andNot dc LCD_BLINKON
  (dc2, [Act.lcdByte (LCD_DISPLAYCONTROL ||| dc2) LCD_CMD])

/-- The `show_underline` method as a transition on `displaycontrol`. -/
def show_underline (dc : Nat) (b : Bool) : Nat × List Act :=
  let dc2 := if b then dc ||| LCD_CURSORON else andNot dc LCD_CURSORON
  (dc2, [Act.lcdByte (LCD_DISPLAYCONTROL ||| dc2) LCD_CMD])

/-- Combined trace of `show_blink(True)` followed by `show_underline(True)`
starting from the freshly initialized `displaycontrol`. -/
def blink_then_underline_acts : List Act :=
  let r1 := show_blink displaycontrol_init true
  let r2 := show_underline r1.1 true
  r1.2 ++ r2.2

/-- Python sequence indexing `l[i]`, including the negative-index wrap:
`l[i]` is `l[len l + i]` for negative `i`; out of range is `none`
(`IndexError`). -/
def pyGet (l : List Nat) (i : Int) : Option Nat :=
  let j : Int := if i < 0 then i + l.length else i
  if 0 ≤ j then l.get? j.toNat else none

/-- The `set_line` method: index the `LCD_LINES` tuple (Python indexing
happens before anything is sent), then send the resulting byte as a
command; `none` models the `IndexError` with nothing sent. -/
def set_line (num : Int) : Option (List Act) :=
  (pyGet LCD_LINES num).map fun b => [Act.lcdByte b LCD_CMD]

/-- The `set_cursor` method: clamp the row only when it is strictly greater
than `rows` (the source condition is `row > self.rows`), then index
`LCD_ROW_OFFSETS` and send the DDRAM-set command; `none` models the
`IndexError` with nothing sent. -/
def set_cursor (rows : Nat) (col : Nat) (row : Int) : Option (List Act) :=
  let row2 : Int := if row > (rows : Int) then (rows : Int) - 1 else row
  (pyGet LCD_ROW_OFFSETS row2).map fun off =>
    [Act.lcdByte (LCD_SETDDRAMADDR ||| (col + off)) LCD_CMD]

/-- The body of `create_char`'s `for i in range(8)` loop: at each iteration
index `pattern[i]` (reporting `false` on `IndexError`, with the actions
sent so far kept) and send the byte in character mode. -/
def ccLoop (p : List Nat) : Nat → Nat → List Act × Bool
  | 0, _ => ([], true)
  | fuel + 1, i =>
    match p.get? i with
    | some b =>
      let r := ccLoop p fuel (i + 1)
      (Act.lcdByte b LCD_CHR :: r.1, r.2)
    | none => ([], false)

/-- The `create_char` method: mask the location to 3 bits, send the
CGRAM-set command for the masked slot, then send the first 8 pattern bytes;
the `Bool` is `false` when the pattern ran out (`IndexError`). -/
def create_char (location : Nat) (p : List Nat) : List Act × Bool :=
  let loc := location &&& 0x7
  let r := ccLoop p 8 0
  (Act.lcdByte (LCD_SETCGRAMADDR ||| (loc <<< 3)) LCD_CMD :: r.1, r.2)

/-- Space character code used by Python string padding. -/
def SPACE : Nat := 32

/-- Python format `'\x7b0:<\x7b1\x7d\x7d'`: left-justify to the width with
spaces (no change when the text is at least the width). -/
def formatLeft (s : List Nat) (w : Nat) : List Nat :=
  s ++ List.replicate (w - s.length) SPACE

/-- Python format `'\x7b0:>\x7b1\x7d\x7d'`: right-justify to the width. -/
def formatRight (s : List Nat) (w : Nat) : List Nat :=
  List.replicate (w - s.length) SPACE ++ s

/-- Python format `'\x7b0:^\x7b1\x7d\x7d'`: center in the width, the left
margin getting the floor of half the padding (extra space on the right). -/
def formatCenter (s : List Nat) (w : Nat) : List Nat :=
  let pad := w - s.length
  List.replicate (pad / 2) SPACE ++ s ++ List.replicate (pad - pad / 2) SPACE

/-- The `message` method over a text given as character codes: justify per
`align`, then send each character left to right in character mode. -/
def message (cols : Nat) (text : List Nat) (align : Int) : List Act :=
  let m :=
    if align = 1 then formatLeft text cols
    else if align = 2 then formatCenter text cols
    else if align = 3 then formatRight text cols
    else text
  m.map fun c => Act.lcdByte c LCD_CHR

/-- Trace that transmits the given character codes, one character-mode
transfer each, left to right. -/
def sends (chars : List Nat) : List Act :=
  chars.map fun c => Act.lcdByte c LCD_CHR

/-- One enable-latch sequence: setup delay, enable high, pulse, enable low,
setup delay. -/
def latchSeq : List Ev :=
  [Ev.sleep E_DELAY, Ev.en 1, Ev.sleep E_PULSE, Ev.en 0, Ev.sleep E_DELAY]

/-- Drive the four data lines with nibble `n`: clear them, then raise line
`d4 + i` exactly when bit `i` of `n` is set (increasing significance). -/
def nibbleWrites (n : Nat) : List Ev :=
  [Ev.d4 0, Ev.d5 0, Ev.d6 0, Ev.d7 0]
  ++ (if n &&& 0x1 = 0x1 then [Ev.d4 1] else [])
  ++ (if n &&& 0x2 = 0x2 then [Ev.d5 1] else [])
  ++ (if n &&& 0x4 = 0x4 then [Ev.d6 1] else [])
  ++ (if n &&& 0x8 = 0x8 then [Ev.d7 1] else [])

/-- Sleep extractor for one pin event. -/
def evSleepTicks : Ev → Option Nat
  | Ev.sleep t => some t
  | _ => none

/-- Durations of the sleeps of a pin-level trace, in order. -/
def sleepTicks (l : List Ev) : List Nat :=
  l.filterMap evSleepTicks

/-- Command byte sent by a call-level action, if it is a command-mode
transfer. -/
def actCmdByte : Act → Option Nat
  | Act.lcdByte b 0 => some b
  | _ => none

/-- Fidelity of `andNot` to Python's `a & ~b`: bit `i` of the result is set
exactly when it is set in `a` and not in `b`. -/
lemma andNot_testBit (a b i : Nat) :
    (andNot a b).testBit i = (a.testBit i && ! b.testBit i) := by
  unfold andNot
  rw [Nat.testBit_xor, Nat.testBit_and]
  cases a.testBit i <;> cases b.testBit i <;> rfl

set_option maxRecDepth 10000 in
/-- For every byte, the nibble part of `lcd_byte` is the high-nibble data
writes, a latch, the low-nibble data writes, and a second latch. -/
lemma lcd_byte_nibbles_eq : ∀ b < 256, lcd_byte_nibbles b =
    nibbleWrites ((b >>> 4) &&& 0xF) ++ latchSeq
      ++ nibbleWrites (b &&& 0xF) ++ latchSeq := by
  decide

/-- The `create_char` loop with `fuel` iterations left, starting at index
`i`, sends the pattern bytes from `i` on (at most `fuel` of them) and
succeeds exactly when the pattern does not run out. -/
lemma ccLoop_spec (p : List Nat) : ∀ (fuel i : Nat),
    ccLoop p fuel i =
      (((p.drop i).take fuel).map (fun b => Act.lcdByte b LCD_CHR),
       decide (i + fuel ≤ p.length ∨ fuel = 0)) := by
  intro fuel
  induction fuel with
  | zero =>
    intro i
    simp [ccLoop]
  | succ n ih =>
    intro i
    by_cases h : i < p.length
    · have hg : p.get? i = some (p.get ⟨i, h⟩) := List.get?_eq_get h
      rw [ccLoop, hg]
      simp only [ih (i + 1), Prod.mk.injEq]
      refine ⟨?_, ?_⟩
      · have hd : p.drop i = p.get ⟨i, h⟩ :: p.drop (i + 1) := by
          rw [List.drop_eq_getElem_cons h]
          rfl
        rw [hd]
        rfl
      · simp only [decide_eq_decide]
        omega
    · have hg : p.get? i = none := by
        rw [List.get?_eq_none]
        omega
      rw [ccLoop, hg]
      have hd : p.drop i = [] := List.drop_eq_nil_of_le (by omega)
      rw [hd]
      simp only [List.take_nil, List.map_nil, Prod.mk.injEq, true_and]
      have hno : ¬(i + (n + 1) ≤ p.length ∨ n + 1 = 0) := by omega
      exact (decide_eq_false hno).symm

/-- The line-address table has four entries. -/
lemma length_LCD_LINES : LCD_LINES.length = 4 := rfl

/-- Python indexing past the end of the sequence is an `IndexError`. -/
lemma pyGet_none_of_length_le (l : List Nat) (i : Int) (h : (l.length : Int) ≤ i) :
    pyGet l i = none := by
  unfold pyGet
  rw [if_neg (show ¬i < 0 by omega), if_pos (show (0:Int) ≤ i by omega),
    List.get?_eq_none]
  omega

/-- Python indexing below `-len` is an `IndexError`. -/
lemma pyGet_none_of_lt_neg_length (l : List Nat) (i : Int) (h : i + l.length < 0) :
    pyGet l i = none := by
  unfold pyGet
  rw [if_pos (show i < 0 by omega), if_neg (show ¬(0:Int) ≤ i + l.length by omega)]

/-- Claim C1 (evaluation at the failing inputs): `set_cursor` leaves
`row = rows` unclamped because the source condition is the strict
`row > self.rows`.  With 4 configured rows, `set_cursor(0, 4)` indexes
`LCD_ROW_OFFSETS[4]` and fails with an `IndexError` (sending nothing)
instead of clamping; with the default 2 rows, `set_cursor(0, 2)` sends
`0x80 ||| 0x14 = 0x94` (the offset of physical row 2) rather than behaving
like `set_cursor(0, 1)`, which sends `0xC0`.  Rows strictly greater than
`rows` are clamped as the claim says (`set_cursor(0, 3)` with 2 rows sends
`0xC0`). -/
theorem C1_set_cursor_row_boundary :
    set_cursor 4 0 4 = none ∧
    set_cursor 2 0 2 = some [Act.lcdByte 0x94 LCD_CMD] ∧
    set_cursor 2 0 1 = some [Act.lcdByte 0xC0 LCD_CMD] ∧
    set_cursor 2 0 2 ≠ set_cursor 2 0 1 ∧
    set_cursor 2 0 3 = some [Act.lcdByte 0xC0 LCD_CMD] := by
  decide

/-- Claim C2: for every byte `b < 256` and every mode, `lcd_byte` first
writes the mode to the register-select line, waits the setup delay, and
then issues exactly two enable-latch sequences: the first preceded by the
data-line writes of the high nibble `(b >>> 4) &&& 0xF`, the second by
those of the low nibble `b &&& 0xF`, each nibble's bit `i` driving data
line `d4 + i`. -/
theorem C2_lcd_byte_two_nibble_latches (b m : Nat) (hb : b < 256) :
    lcd_byte b m = Ev.rs m :: Ev.sleep E_DELAY ::
      (nibbleWrites ((b >>> 4) &&& 0xF) ++ latchSeq
        ++ nibbleWrites (b &&& 0xF) ++ latchSeq) := by
  unfold lcd_byte
  rw [lcd_byte_nibbles_eq b hb]

/-- Witness for C2 at the concrete byte `0xA5` in character mode. -/
theorem C2_witness :
    (0xA5 : Nat) < 256 ∧
    lcd_byte 0xA5 LCD_CHR = Ev.rs LCD_CHR :: Ev.sleep E_DELAY ::
      (nibbleWrites ((0xA5 >>> 4) &&& 0xF) ++ latchSeq
        ++ nibbleWrites (0xA5 &&& 0xF) ++ latchSeq) :=
  ⟨by decide, C2_lcd_byte_two_nibble_latches 0xA5 LCD_CHR (by decide)⟩

/-- Claim C3: construction performs, in this exact order and with no step
skipped, the command transfers 0x33, 0x32, 0x28, 0x0C, 0x06 and finally
the clear command 0x01 (followed by the clear settle sleep); the command
bytes extracted from the trace are exactly that sequence. -/
theorem C3_init_sequence :
    init_acts = [Act.lcdByte 0x33 LCD_CMD, Act.lcdByte 0x32 LCD_CMD,
      Act.lcdByte 0x28 LCD_CMD, Act.lcdByte 0x0C LCD_CMD,
      Act.lcdByte 0x06 LCD_CMD, Act.lcdByte LCD_CLEAR LCD_CMD,
      Act.sleepAct HOMEDELAY] ∧
    init_acts.filterMap actCmdByte = [0x33, 0x32, 0x28, 0x0C, 0x06, 0x01] :=
  ⟨rfl, rfl⟩

/-- Claim C4: `message` with align 1 sends the text followed by
`cols - len` spaces; with align 3, that many leading spaces then the text;
with align 2 it centers, the left margin getting the floor of half the
padding (so the extra space of an odd padding goes to the right); every
character is one character-mode transfer, left to right.  On 16 columns,
"AB" left-justified is "AB" then 14 spaces, and centered is 7 spaces,
"AB", 7 spaces; on 4 columns, "A" centered is 1 space, "A", 2 spaces. -/
theorem C4_message_alignment (cols : Nat) (text : List Nat) :
    message cols text 1 = sends (text ++ List.replicate (cols - text.length) SPACE) ∧
    message cols text 3 = sends (List.replicate (cols - text.length) SPACE ++ text) ∧
    message cols text 2 = sends (List.replicate ((cols - text.length) / 2) SPACE
      ++ text ++ List.replicate ((cols - text.length) - (cols - text.length) / 2) SPACE) ∧
    message 16 [65, 66] 1 = sends ([65, 66] ++ List.replicate 14 SPACE) ∧
    message 16 [65, 66] 2 = sends (List.replicate 7 SPACE ++ [65, 66]
      ++ List.replicate 7 SPACE) ∧
    message 4 [65] 2 = sends [SPACE, 65, SPACE, SPACE] :=
  ⟨rfl, rfl, rfl, by decide, by decide, by decide⟩

/-- Claim C5 counterexample: after initialization, `show_blink(true)` then
`show_underline(true)` sends 0x0D then 0x0F, not the all-flags-set command
0x0F twice as the claim states. -/
theorem C5_counterexample :
    blink_then_underline_acts = [Act.lcdByte 0x0D LCD_CMD, Act.lcdByte 0x0F LCD_CMD] ∧
    blink_then_underline_acts ≠ [Act.lcdByte 0x0F LCD_CMD, Act.lcdByte 0x0F LCD_CMD] := by
  decide

/-- Claim C5 as amended: after initialization `displaycontrol` is 0x04
(display on, cursor off, blink off); each of `enable`, `show_underline`,
`show_blink` changes only its own flag bit (0x4, 0x2, 0x1 respectively),
leaves the other two bits unchanged, and sends exactly one command byte
equal to `LCD_DISPLAYCONTROL ||| displaycontrol`; hence `show_blink(true)`
then `show_underline(true)` after initialization sends 0x0D (on and blink)
and then 0x0F — the all-flags-set command is sent once, by the second
call, each call re-sending the full combined mask. -/
theorem C5_displaycontrol_amended :
    displaycontrol_init = 0x04 ∧
    (∀ dc < 8, ∀ b : Bool,
      ((enable dc b).1 &&& 0x3 = dc &&& 0x3 ∧
        (enable dc b).1 &&& 0x4 = (if b then 0x4 else 0)) ∧
      ((show_underline dc b).1 &&& 0x5 = dc &&& 0x5 ∧
        (show_underline dc b).1 &&& 0x2 = (if b then 0x2 else 0)) ∧
      ((show_blink dc b).1 &&& 0x6 = dc &&& 0x6 ∧
        (show_blink dc b).1 &&& 0x1 = (if b then 0x1 else 0)) ∧
      (enable dc b).2 = [Act.lcdByte (LCD_DISPLAYCONTROL ||| (enable dc b).1) LCD_CMD] ∧
      (show_underline dc b).2 =
        [Act.lcdByte (LCD_DISPLAYCONTROL ||| (show_underline dc b).1) LCD_CMD] ∧
      (show_blink dc b).2 =
        [Act.lcdByte (LCD_DISPLAYCONTROL ||| (show_blink dc b).1) LCD_CMD]) ∧
    blink_then_underline_acts = [Act.lcdByte 0x0D LCD_CMD, Act.lcdByte 0x0F LCD_CMD] := by
  decide

/-- Witness for C5 at the concrete state `dc = 5`. -/
theorem C5_witness :
    (5 : Nat) < 8 ∧
    ((show_blink 5 false).1 &&& 0x6 = 5 &&& 0x6 ∧
      (show_blink 5 false).1 &&& 0x1 = (if false then 0x1 else 0)) :=
  ⟨by decide, (C5_displaycontrol_amended.2.1 5 (by decide) false).2.2.1⟩

/-- Claim C6: `create_char` masks the slot to its low 3 bits, so slot 8
behaves identically to slot 0 and slot 15 identically to slot 7. -/
theorem C6_create_char_slot_mask (p : List Nat) (_hp : 8 ≤ p.length) :
    create_char 8 p = create_char 0 p ∧ create_char 15 p = create_char 7 p :=
  ⟨rfl, rfl⟩

/-- Witness for C6 on an 8-byte pattern. -/
theorem C6_witness :
    8 ≤ (List.replicate 8 0 : List Nat).length ∧
    create_char 8 (List.replicate 8 0) = create_char 0 (List.replicate 8 0) :=
  ⟨by decide, (C6_create_char_slot_mask (List.replicate 8 0) (by decide)).1⟩

/-- Claim C7 counterexample: `set_line(-1)` does not fail — Python negative
indexing silently sends the last table entry 0xD4. -/
theorem C7_counterexample :
    set_line (-1) = some [Act.lcdByte 0xD4 LCD_CMD] ∧ set_line (-1) ≠ none := by
  decide

/-- Claim C7 as amended: for `num` in 0–3, `set_line` sends exactly one
command byte, the `num`-th entry of the table (0x80, 0xC0, 0x94, 0xD4);
for `num ≥ 4` or `num ≤ -5` it fails with an index-out-of-range error and
sends nothing; for `num` in -4..-1, Python negative indexing applies and
it sends the `(num + 4)`-th entry instead of failing. -/
theorem C7_set_line_amended (num : Int) :
    set_line num =
      if 0 ≤ num ∧ num ≤ 3 then
        some [Act.lcdByte (LCD_LINES.getD num.toNat 0) LCD_CMD]
      else if -4 ≤ num ∧ num ≤ -1 then
        some [Act.lcdByte (LCD_LINES.getD (num + 4).toNat 0) LCD_CMD]
      else none := by
  by_cases h0 : 0 ≤ num
  · by_cases h3 : num ≤ 3
    · rw [if_pos ⟨h0, h3⟩]
      interval_cases num <;> decide
    · rw [if_neg (show ¬(0 ≤ num ∧ num ≤ 3) by omega),
        if_neg (show ¬(-4 ≤ num ∧ num ≤ -1) by omega)]
      unfold set_line
      rw [pyGet_none_of_length_le _ _ (by rw [length_LCD_LINES]; omega)]
      rfl
  · by_cases h4 : -4 ≤ num
    · rw [if_neg (show ¬(0 ≤ num ∧ num ≤ 3) by omega),
        if_pos (show -4 ≤ num ∧ num ≤ -1 by omega)]
      interval_cases num <;> decide
    · rw [if_neg (show ¬(0 ≤ num ∧ num ≤ 3) by omega),
        if_neg (show ¬(-4 ≤ num ∧ num ≤ -1) by omega)]
      unfold set_line
      rw [pyGet_none_of_lt_neg_length _ _ (by rw [length_LCD_LINES]; omega)]
      rfl

/-- Claim C8: `create_char` sends the CGRAM-set command for the masked slot
followed by the first 8 pattern bytes in order, each as a character-mode
transfer, succeeding exactly when the pattern has at least 8 bytes; when it
has fewer, it fails with an index-out-of-range error partway through, after
sending the CGRAM-set command and all the available pattern bytes. -/
theorem C8_create_char_trace (loc : Nat) (p : List Nat) :
    create_char loc p =
      (Act.lcdByte (LCD_SETCGRAMADDR ||| ((loc &&& 0x7) <<< 3)) LCD_CMD ::
        (p.take 8).map (fun b => Act.lcdByte b LCD_CHR),
       decide (8 ≤ p.length)) ∧
    (p.length < 8 →
      create_char loc p =
        (Act.lcdByte (LCD_SETCGRAMADDR ||| ((loc &&& 0x7) <<< 3)) LCD_CMD ::
          p.map (fun b => Act.lcdByte b LCD_CHR), false)) := by
  have main : create_char loc p =
      (Act.lcdByte (LCD_SETCGRAMADDR ||| ((loc &&& 0x7) <<< 3)) LCD_CMD ::
        (p.take 8).map (fun b => Act.lcdByte b LCD_CHR),
       decide (8 ≤ p.length)) := by
    unfold create_char
    rw [ccLoop_spec]
    simp only [List.drop_zero, Prod.mk.injEq, true_and]
    simp only [decide_eq_decide]
    omega
  refine ⟨main, fun hlt => ?_⟩
  rw [main, List.take_of_length_le (by omega), decide_eq_false (by omega)]

/-- Witness for C8 on a 3-byte pattern in slot 9. -/
theorem C8_witness :
    ([9, 8, 7] : List Nat).length < 8 ∧
    create_char 9 [9, 8, 7] =
      (Act.lcdByte (LCD_SETCGRAMADDR ||| ((9 &&& 0x7) <<< 3)) LCD_CMD ::
        ([9, 8, 7] : List Nat).map (fun b => Act.lcdByte b LCD_CHR), false) :=
  ⟨by decide, (C8_create_char_trace 9 [9, 8, 7]).2 (by decide)⟩

/-- Claim C9: `clear` and `home` each send their single command byte and
then sleep the long settle delay `HOMEDELAY`, which is strictly longer
than the short setup and pulse delays; at pin level their sleep sequences
are the seven short transfer delays then `HOMEDELAY`, and every sleep of
any `lcd_byte` transfer is one of the short delays `E_DELAY`, `E_PULSE`. -/
theorem C9_settle_delays :
    clear_acts = [Act.lcdByte LCD_CLEAR LCD_CMD, Act.sleepAct HOMEDELAY] ∧
    home_acts = [Act.lcdByte LCD_HOME LCD_CMD, Act.sleepAct HOMEDELAY] ∧
    sleepTicks (expandActs clear_acts) =
      [E_DELAY, E_DELAY, E_PULSE, E_DELAY, E_DELAY, E_PULSE, E_DELAY, HOMEDELAY] ∧
    sleepTicks (expandActs home_acts) =
      [E_DELAY, E_DELAY, E_PULSE, E_DELAY, E_DELAY, E_PULSE, E_DELAY, HOMEDELAY] ∧
    E_DELAY < HOMEDELAY ∧ E_PULSE < HOMEDELAY ∧
    ∀ b m : Nat, sleepTicks (lcd_byte b m) =
      [E_DELAY, E_DELAY, E_PULSE, E_DELAY, E_DELAY, E_PULSE, E_DELAY] := by
  refine ⟨rfl, rfl, by decide, by decide, by decide, by decide, fun b m => ?_⟩
  simp [lcd_byte, lcd_byte_nibbles, sleepTicks, List.filterMap_append,
    apply_ite (List.filterMap evSleepTicks), List.filterMap, evSleepTicks]

/-- Claim C10: `message` sends exactly the literal text, unpadded and
untruncated, whenever `align` is outside 1, 2, 3 (not only 0), and also
whenever the text is at least as long as the configured column count, for
any `align`. -/
theorem C10_message_passthrough (cols : Nat) (text : List Nat) (align : Int) :
    (align ≠ 1 → align ≠ 2 → align ≠ 3 → message cols text align = sends text) ∧
    (cols ≤ text.length → message cols text align = sends text) := by
  constructor
  · intro h1 h2 h3
    unfold message
    rw [if_neg h1, if_neg h2, if_neg h3]
    rfl
  · intro hle
    have hz : cols - text.length = 0 := by omega
    unfold message sends formatLeft formatRight formatCenter
    rcases eq_or_ne align 1 with rfl | h1
    · simp [hz]
    · rcases eq_or_ne align 2 with rfl | h2
      · simp [hz]
      · rcases eq_or_ne align 3 with rfl | h3
        · simp [hz]
        · rw [if_neg h1, if_neg h2, if_neg h3]

/-- Witness for C10 with align 7 on a 1-column display showing "AB". -/
theorem C10_witness :
    ((7 : Int) ≠ 1 ∧ (7 : Int) ≠ 2 ∧ (7 : Int) ≠ 3 ∧
      message 1 [65, 66] 7 = sends [65, 66]) ∧
    (1 ≤ ([65, 66] : List Nat).length ∧ message 1 [65, 66] 7 = sends [65, 66]) :=
  ⟨⟨by decide, by decide, by decide,
      (C10_message_passthrough 1 [65, 66] 7).1 (by decide) (by decide) (by decide)⟩,
    ⟨by decide, (C10_message_passthrough 1 [65, 66] 7).2 (by decide)⟩⟩

end CharLCD
